import Mathlib

/-!
Verification of the guestbook/gallery core (src/src/main.rs) against its
natural-language specification.

Shallow embedding conventions:
* Rust `String` values that are inspected character by character become
  `List Char`; response bodies stay `String`.
* Byte payloads become `List Nat`; only their length is inspected by the code.
* The database and filesystem are boolean oracles: each fallible call is
  modelled by a `Bool` (or a `Bool`-valued oracle indexed by call number).
* Every `.unwrap()` on a runtime-fallible operation in the source is modelled
  by a distinguished `panicked` outcome, since a failing unwrap aborts the
  handling task instead of producing a response.
-/

namespace Hola

/-- Rust constant MAX_IMAGE_SIZE: usize = 5 * 1024 * 1024. -/
def MAX_IMAGE_SIZE : Nat := 5 * 1024 * 1024

/-- Rust constant ALLOWED_MIME: the four admitted content types. -/
def ALLOWED_MIME : List String := ["image/jpeg", "image/png", "image/webp", "image/jpg"]

/-- Char-level test that `pat` is a prefix of the second list. -/
def startsWithPat : List Char → List Char → Bool
  | [], _ => true
  | _ :: _, [] => false
  | p :: ps, b :: bs => p == b && startsWithPat ps bs

/-- One pass of Rust str::replace(pat, ""): scan left to right and delete each
non-overlapping occurrence of `pat`.  `skip` counts characters of a matched
occurrence still to be deleted; a new match is only looked for once the
previous one has been fully consumed, exactly as `match_indices` does. -/
def replaceGo (pat : List Char) : Nat → List Char → List Char
  | _, [] => []
  | Nat.succ k, _ :: rest => replaceGo pat k rest
  | 0, a :: rest =>
    if startsWithPat pat (a :: rest) && !pat.isEmpty then
      replaceGo pat (pat.length - 1) rest
    else
      a :: replaceGo pat 0 rest

/-- Rust text.replace(pat, "") for a non-empty literal pattern. -/
def replacePat (pat l : List Char) : List Char := replaceGo pat 0 l

/-- The forbidden pattern "--". -/
def dashPat : List Char := ['-', '-']

/-- The forbidden pattern "script". -/
def scriptPat : List Char := ['s', 'c', 'r', 'i', 'p', 't']

/-- The forbidden substrings of sanitize_text, in source order.
Char.ofNat 34 is the double quote and Char.ofNat 39 the single quote. -/
def forbidden : List (List Char) :=
  [['<'], ['>'], [Char.ofNat 34], [Char.ofNat 39], [';'], dashPat, scriptPat]

/-- Rust fn sanitize_text: for f in forbidden, text = text.replace(f, "").
One replacement pass per forbidden string, in the fixed order of `forbidden`. -/
def sanitize_text (text : List Char) : List Char :=
  forbidden.foldl (fun t f => replacePat f t) text

/-- Substring-occurrence test, used to state properties of sanitize_text. -/
def containsPat (pat : List Char) : List Char → Bool
  | [] => pat.isEmpty
  | a :: rest => startsWithPat pat (a :: rest) || containsPat pat rest

/-- UTF-8 encoded size of one character; Rust String::len counts bytes. -/
def utf8Size (c : Char) : Nat :=
  if c.toNat < 128 then 1
  else if c.toNat < 2048 then 2
  else if c.toNat < 65536 then 3
  else 4

/-- Rust String::len: total UTF-8 byte length of the string. -/
def utf8Length (l : List Char) : Nat := l.foldr (fun c n => utf8Size c + n) 0

/-- The accented letters admitted by the name regular expression. -/
def accentedChars : List Char :=
  ['á', 'é', 'í', 'ó', 'ú', 'Á', 'É', 'Í', 'Ó', 'Ú', 'ñ', 'Ñ']

/-- The characters matched by regex \s (Unicode White_Space), the whitespace
class used by the name regular expression. -/
def spaceChars : List Char :=
  ['\t', '\n', '\u000b', '\u000c', '\r', ' ', '\u0085', '\u00a0', '\u1680',
   '\u2000', '\u2001', '\u2002', '\u2003', '\u2004', '\u2005', '\u2006',
   '\u2007', '\u2008', '\u2009', '\u200a', '\u2028', '\u2029', '\u202f',
   '\u205f', '\u3000']

/-- One character of the class [a-zA-ZáéíóúÁÉÍÓÚñÑ\s]. -/
def allowedNameChar (c : Char) : Bool :=
  (decide ('a' ≤ c) && decide (c ≤ 'z')) ||
  (decide ('A' ≤ c) && decide (c ≤ 'Z')) ||
  accentedChars.contains c || spaceChars.contains c

/-- Full-string match of the anchored regex used by enviar and
update_mensaje: between 3 and 50 characters, all from the class above. -/
def nameMatches (l : List Char) : Bool :=
  decide (3 ≤ l.length) && decide (l.length ≤ 50) && l.all allowedNameChar

/-- Result of a string-response handler: either an HTTP response body, or a
panic of the handling task (a failed `.unwrap()`). -/
inductive Outcome
  | response (s : String)
  | panicked
  deriving DecidableEq

/-- Rust fn enviar.  `insertOk` is the database oracle for the INSERT. -/
def enviar (insertOk : Bool) (nombre mensaje recaptcha : List Char) : Outcome :=
  if !(nameMatches (sanitize_text nombre)) then Outcome.response "❌ Nombre inválido"
  else if utf8Length (sanitize_text mensaje) < 10 ∨ 500 < utf8Length (sanitize_text mensaje) then
    Outcome.response "❌ Mensaje inválido"
  else if recaptcha.isEmpty then Outcome.response "❌ Completa el reCAPTCHA"
  else if insertOk then Outcome.response "✅ Mensaje enviado correctamente"
  else Outcome.response "❌ Error guardando mensaje"

/-- Rust fn update_mensaje.  `updateOk` is the database oracle for the UPDATE. -/
def update_mensaje (updateOk : Bool) (mid : Int) (nombre mensaje : List Char) : Outcome :=
  if !(nameMatches (sanitize_text nombre)) then Outcome.response "❌ Nombre inválido"
  else if utf8Length (sanitize_text mensaje) < 10 ∨ 500 < utf8Length (sanitize_text mensaje) then
    Outcome.response "❌ Mensaje inválido"
  else if updateOk then Outcome.response "✅ Mensaje actualizado correctamente"
  else Outcome.response "❌ Error al actualizar mensaje"

/-- Rust fn delete_mensaje.  `deleteOk` is the database oracle for the DELETE. -/
def delete_mensaje (deleteOk : Bool) (mid : Int) : Outcome :=
  if deleteOk then Outcome.response "✅ Mensaje eliminado"
  else Outcome.response "❌ Error al eliminar"

/-- A row of the mensajes table. -/
structure MsgRow where
  id : Int
  nombre : List Char
  mensaje : List Char
  deriving DecidableEq

/-- The JSON payload of list_mensajes. -/
structure PaginatedResponse where
  data : List MsgRow
  total : Int
  page : Int
  total_pages : Int
  deriving DecidableEq

/-- Result of list_mensajes: a JSON response or a panic. -/
inductive ListOutcome
  | json (r : PaginatedResponse)
  | panicked
  deriving DecidableEq

/-- Insertion into a list sorted by descending id. -/
def insertDesc (r : MsgRow) : List MsgRow → List MsgRow
  | [] => [r]
  | x :: xs => if x.id ≤ r.id then r :: x :: xs else x :: insertDesc r xs

/-- The table ordered by descending id (SQL ORDER BY id DESC; ids are unique so
any stable realisation of the order is the same list). -/
def sortDesc (db : List MsgRow) : List MsgRow := db.foldr insertDesc []

/-- Two s-complement wrap-around into the i64 range [-2^63, 2^63): release-mode
Rust wraps an overflowing i64 multiplication to this value. -/
def wrap64 (n : Int) : Int :=
  (n + 9223372036854775808) % 18446744073709551616 - 9223372036854775808

/-- Rust fn list_mensajes, after query-string extraction.  `db` is the table
content, `countOk` the oracle of the COUNT query (whose failure is absorbed by
unwrap_or((0,))), `fetchOk` the oracle of the SELECT (whose failure hits
.unwrap() and panics).  The offset (page - 1) * limit is computed in i64: an
overflowing product wraps (release build; a debug build would panic there,
also not a response).  A wrapped-negative offset makes the SELECT itself fail
(OFFSET must not be negative), hitting the same .unwrap() panic as a failing
query, so the fetch succeeds only when the oracle succeeds and the wrapped
offset is non-negative.  total_pages is computed in the source as
(total as f64 / limit as f64).ceil() as i64; it is modelled by the exact
integer ceiling (total + limit - 1) / limit, with which it coincides for every
table size representable below 2^53. -/
def list_mensajes_core (db : List MsgRow) (countOk fetchOk : Bool)
    (pageParam limitParam : Option Int) : ListOutcome :=
  let page := max (pageParam.getD 1) 1
  let limit := max (limitParam.getD 5) 1
  let offset := wrap64 ((page - 1) * limit)
  let total : Int := if countOk then (db.length : Int) else 0
  if fetchOk && decide (0 ≤ offset) then
    ListOutcome.json
      { data := ((sortDesc db).drop offset.toNat).take limit.toNat
        total := total
        page := page
        total_pages := (total + limit - 1) / limit }
  else ListOutcome.panicked

/-- Deserialization of PaginationParams from the query string: serde reads the
keys "page" and "limit" and ignores every other key (the struct has no other
field).  Values are modelled already parsed; a missing key gives none. -/
def paramsOfQuery (q : List (String × String)) : Option Int × Option Int :=
  ((List.lookup "page" q).bind String.toInt?, (List.lookup "limit" q).bind String.toInt?)

/-- GET /mensajes: query-string extraction followed by list_mensajes_core. -/
def list_mensajes_route (db : List MsgRow) (countOk fetchOk : Bool)
    (q : List (String × String)) : ListOutcome :=
  let ps := paramsOfQuery q
  list_mensajes_core db countOk fetchOk ps.1 ps.2

/-- A row of the images table. -/
structure ImageRow where
  id : Int
  filename : String
  deriving DecidableEq

/-- Result of list_images: a JSON response or a panic. -/
inductive ImagesOutcome
  | json (rows : List ImageRow)
  | panicked
  deriving DecidableEq

/-- Insertion into an image list sorted by descending id. -/
def insertImgDesc (r : ImageRow) : List ImageRow → List ImageRow
  | [] => [r]
  | x :: xs => if x.id ≤ r.id then r :: x :: xs else x :: insertImgDesc r xs

/-- The images table ordered by descending id. -/
def sortImgDesc (db : List ImageRow) : List ImageRow := db.foldr insertImgDesc []

/-- Rust fn list_images: SELECT ... ORDER BY id DESC, with .unwrap() on the
query result, so a failing query panics. -/
def list_images (db : List ImageRow) (fetchOk : Bool) : ImagesOutcome :=
  if fetchOk then ImagesOutcome.json (sortImgDesc db) else ImagesOutcome.panicked

/-- One multipart field as upload_image sees it: its declared name, its
declared content type, and the result of field.bytes().await (whose failure
hits .unwrap() and panics). -/
structure Part where
  name : Option String
  contentType : Option String
  bytesRes : Except Unit (List Nat)

/-- Filesystem / database effects performed by upload_image, in order:
File::create, write_all, and the INSERT INTO images, each with its result. -/
inductive Event
  | create (fn : String) (ok : Bool)
  | write (fn : String) (ok : Bool)
  | insert (fn : String) (ok : Bool)
  deriving DecidableEq

/-- Oracles of upload_image: create_dir_all, and per saved-file attempt `k`
the File::create result, the write_all result, the INSERT result, and the
generated Uuid::new_v4 string. -/
structure Env where
  createDirOk : Bool
  createOk : Nat → Bool
  writeOk : Nat → Bool
  insertOk : Nat → Bool
  freshName : Nat → String

/-- The extension match in upload_image. -/
def extensionFor (mime : String) : Option String :=
  if mime == "image/jpeg" || mime == "image/jpg" then some "jpg"
  else if mime == "image/png" then some "png"
  else if mime == "image/webp" then some "webp"
  else none

/-- Body of upload_image's while-let loop.  The stream of parts is a list of
`Except Unit Part`: an error element is a failing multipart.next_field(),
which hits .unwrap() and panics.  `k` numbers the saved-file attempts (it
indexes the fs/db oracles and the fresh uuid), `fileSaved` is the handler's
mutable flag.  Returns the outcome and the chronological effect trace. -/
def uploadLoop (env : Env) : List (Except Unit Part) → Nat → Bool → Outcome × List Event
  | [], _, fileSaved =>
    (Outcome.response
      (if fileSaved then "✅ Imagen subida correctamente" else "❌ Error al guardar imagen"), [])
  | Except.error _ :: _, _, _ => (Outcome.panicked, [])
  | Except.ok f :: rest, k, fileSaved =>
    if f.name ≠ some "file" then uploadLoop env rest k fileSaved
    else
      let mime := f.contentType.getD ""
      if !(ALLOWED_MIME.contains mime) then
        (Outcome.response "❌ Tipo de archivo no permitido", [])
      else
        match f.bytesRes with
        | Except.error _ => (Outcome.panicked, [])
        | Except.ok bytes =>
          if MAX_IMAGE_SIZE < bytes.length then
            (Outcome.response "❌ Imagen demasiado grande (máx 5MB)", [])
          else
            match extensionFor mime with
            | none => (Outcome.response "❌ Formato inválido", [])
            | some ext =>
              let filename := env.freshName k ++ "." ++ ext
              if env.createOk k then
                if env.writeOk k then
                  let r := uploadLoop env rest (k + 1) true
                  (r.1, Event.create filename true :: Event.write filename true ::
                        Event.insert filename (env.insertOk k) :: r.2)
                else
                  let r := uploadLoop env rest (k + 1) fileSaved
                  (r.1, Event.create filename true :: Event.write filename false :: r.2)
              else
                let r := uploadLoop env rest (k + 1) fileSaved
                (r.1, Event.create filename false :: r.2)

/-- Rust fn upload_image: create_dir_all("uploads").await.unwrap() (a failure
panics), then the field loop, then the file_saved verdict. -/
def upload_image (env : Env) (parts : List (Except Unit Part)) : Outcome × List Event :=
  if env.createDirOk then uploadLoop env parts 0 false else (Outcome.panicked, [])

/-- HTTP methods used by the router. -/
inductive Method
  | GET
  | POST
  | PUT
  | DELETE
  deriving DecidableEq

/-- The route calls of the Router built in main, in source order. -/
def routes : List (Method × String) :=
  [(Method.GET, "/"), (Method.GET, "/admin"), (Method.POST, "/enviar"),
   (Method.POST, "/upload-image"), (Method.GET, "/images"),
   (Method.GET, "/mensajes"), (Method.DELETE, "/mensajes/:id"),
   (Method.PUT, "/mensajes/:id")]

/-- The nest_service mount points of the Router (static file services). -/
def nestedServices : List String := ["/uploads", "/static", "/css", "/img"]

/-- Modelled from the spec: the case-insensitive substring match on the name
field that the claimed search filter would perform.  No such filter exists in
the source; this definition only serves to state claim C3. -/
def spec_ci_contains (pat s : List Char) : Bool :=
  containsPat (pat.map Char.toLower) (s.map Char.toLower)

/-- Environment in which every oracle succeeds; uuids are modelled by a
constant string (no claim depends on their uniqueness). -/
def envAllOk : Env :=
  { createDirOk := true, createOk := fun _ => true, writeOk := fun _ => true,
    insertOk := fun _ => true, freshName := fun _ => "u" }

/-- Environment in which only the images INSERT fails. -/
def envNoInsert : Env :=
  { createDirOk := true, createOk := fun _ => true, writeOk := fun _ => true,
    insertOk := fun _ => false, freshName := fun _ => "u" }

/-- A well-formed png part of 1 byte. -/
def pngPart : Part :=
  { name := some "file", contentType := some "image/png", bytesRes := Except.ok [0] }

/-- A table of 23 messages with ids 0..22. -/
def db23 : List MsgRow := (List.range 23).map (fun i => { id := (i : Int), nombre := [], mensaje := [] })

/-- The same table in descending id order. -/
def db23sorted : List MsgRow :=
  ((List.range 23).reverse).map (fun i => { id := (i : Int), nombre := [], mensaje := [] })

/-- A one-row message table whose name is "Bob". -/
def bobRow : MsgRow := { id := 1, nombre := ['B', 'o', 'b'], mensaje := List.replicate 10 'a' }

/-- Scanner for the write-before-insert discipline: every insert event must be
immediately preceded by a successful write of the same filename. -/
def chkEvents : Option Event → List Event → Bool
  | _, [] => true
  | prev, e :: rest =>
    (match e with
     | Event.insert fn _ => decide (prev = some (Event.write fn true))
     | _ => true) && chkEvents (some e) rest

/-- A png part of exactly 5 MiB. -/
def png5MiB : Part :=
  { name := some "file", contentType := some "image/png"
    bytesRes := Except.ok (List.replicate (5 * 1024 * 1024) 0) }

/-- A png part of 5 MiB plus one byte. -/
def pngOver5MiB : Part :=
  { name := some "file", contentType := some "image/png"
    bytesRes := Except.ok (List.replicate (5 * 1024 * 1024 + 1) 0) }

/-- Characters of a replacement pass all come from the input. -/
theorem mem_replaceGo {a : Char} (pat : List Char) :
    ∀ (k : Nat) (l : List Char), a ∈ replaceGo pat k l → a ∈ l := by
  intro k l
  induction l generalizing k with
  | nil => intro h; simp [replaceGo] at h
  | cons b bs ih =>
    intro h
    match k with
    | Nat.succ k' =>
      rw [replaceGo] at h
      exact List.mem_cons_of_mem b (ih k' h)
    | 0 =>
      rw [replaceGo] at h
      split at h
      · exact List.mem_cons_of_mem b (ih _ h)
      · rcases List.mem_cons.mp h with h1 | h2
        · exact h1 ▸ List.mem_cons_self a bs
        · exact List.mem_cons_of_mem b (ih 0 h2)

/-- A single-character pattern never survives its own replacement pass. -/
theorem not_mem_replaceGo_single (c : Char) :
    ∀ (k : Nat) (l : List Char), c ∉ replaceGo [c] k l := by
  intro k l
  induction l generalizing k with
  | nil => simp [replaceGo]
  | cons b bs ih =>
    match k with
    | Nat.succ k' =>
      rw [replaceGo]
      exact ih k'
    | 0 =>
      rw [replaceGo]
      split
      · exact ih 0
      · next hcond =>
        intro hmem
        rcases List.mem_cons.mp hmem with h1 | h2
        · apply hcond
          subst h1
          simp [startsWithPat, List.isEmpty]
        · exact ih 0 h2

/-- Replacement passes preserve the absence of a character. -/
theorem not_mem_replacePat (pat : List Char) {c : Char} {l : List Char} (h : c ∉ l) :
    c ∉ replacePat pat l := fun hm => h (mem_replaceGo pat 0 l hm)

theorem not_mem_replacePat_single (c : Char) (l : List Char) : c ∉ replacePat [c] l :=
  not_mem_replaceGo_single c 0 l

/-- sanitize_text unfolded to its seven passes in source order. -/
theorem sanitize_text_eq (l : List Char) :
    sanitize_text l =
      replacePat scriptPat (replacePat dashPat (replacePat [';']
        (replacePat [Char.ofNat 39] (replacePat [Char.ofNat 34]
        (replacePat ['>'] (replacePat ['<'] l)))))) := rfl

/-- Multipart fields not named "file" are skipped with no effect. -/
theorem uploadLoop_skip (env : Env) (pre : List Part)
    (hpre : ∀ q ∈ pre, q.name ≠ some "file") :
    ∀ (parts : List (Except Unit Part)) (k : Nat) (fs : Bool),
      uploadLoop env (pre.map Except.ok ++ parts) k fs = uploadLoop env parts k fs := by
  induction pre with
  | nil => intro parts k fs; rfl
  | cons q qs ih =>
    intro parts k fs
    rw [List.map_cons, List.cons_append, uploadLoop]
    rw [if_pos (hpre q (List.mem_cons_self q qs))]
    exact ih (fun x hx => hpre x (List.mem_cons_of_mem q hx)) parts k fs

/-- A file field with a disallowed content type is rejected at once, with no
filesystem or database effect. -/
theorem uploadLoop_bad_type (env : Env) (f : Part) (rest : List (Except Unit Part))
    (k : Nat) (fs : Bool) (hn : f.name = some "file")
    (hm : f.contentType.getD "" ∉ ALLOWED_MIME) :
    uploadLoop env (Except.ok f :: rest) k fs =
      (Outcome.response "❌ Tipo de archivo no permitido", []) := by
  rw [uploadLoop, if_neg (by simp [hn])]
  simp [hm]

/-- A file field over the size ceiling is rejected at once, with no effect. -/
theorem uploadLoop_too_large (env : Env) (ct : Option String) (b : List Nat)
    (rest : List (Except Unit Part)) (k : Nat) (fs : Bool)
    (hm : ct.getD "" ∈ ALLOWED_MIME)
    (hb : MAX_IMAGE_SIZE < b.length) :
    uploadLoop env (Except.ok { name := some "file", contentType := ct, bytesRes := Except.ok b } :: rest) k fs =
      (Outcome.response "❌ Imagen demasiado grande (máx 5MB)", []) := by
  rw [uploadLoop, if_neg (by simp)]
  simp [hm, hb]

/-- A valid file field with successful create and write: the loop records the
create, the write, and the insert (with the insert oracle verdict), sets
file_saved, and continues with the remaining fields. -/
theorem uploadLoop_valid_step (env : Env) (ct : Option String) (b : List Nat) (ext : String)
    (rest : List (Except Unit Part)) (k : Nat) (fs : Bool)
    (hm : ct.getD "" ∈ ALLOWED_MIME)
    (he : extensionFor (ct.getD "") = some ext)
    (hb : b.length ≤ MAX_IMAGE_SIZE)
    (hc : env.createOk k = true) (hw : env.writeOk k = true) :
    uploadLoop env (Except.ok { name := some "file", contentType := ct, bytesRes := Except.ok b } :: rest) k fs =
      ((uploadLoop env rest (k + 1) true).1,
       Event.create (env.freshName k ++ "." ++ ext) true ::
       Event.write (env.freshName k ++ "." ++ ext) true ::
       Event.insert (env.freshName k ++ "." ++ ext) (env.insertOk k) ::
       (uploadLoop env rest (k + 1) true).2) := by
  rw [uploadLoop, if_neg (by simp)]
  simp [hm, Nat.not_lt.mpr hb, he, hc, hw]

/-- Every trace the upload loop can produce passes the write-before-insert
scanner, whatever the scanner has already seen. -/
theorem chk_uploadLoop (env : Env) (parts : List (Except Unit Part)) :
    ∀ (k : Nat) (fs : Bool) (prev : Option Event),
      chkEvents prev (uploadLoop env parts k fs).2 = true := by
  induction parts with
  | nil => intro k fs prev; rfl
  | cons p rest ih =>
    intro k fs prev
    match p with
    | Except.error e => rfl
    | Except.ok f =>
      rw [uploadLoop]
      split
      · exact ih k fs prev
      · dsimp only
        split
        · rfl
        · split
          · rfl
          · next bytes heq =>
            split
            · rfl
            · split
              · rfl
              · next ext hext =>
                split
                · split
                  · simp [chkEvents]
                    exact ih (k + 1) true _
                  · simp [chkEvents]
                    exact ih (k + 1) fs _
                · simp [chkEvents]
                  exact ih (k + 1) fs _

theorem length_insertDesc (r : MsgRow) (l : List MsgRow) :
    (insertDesc r l).length = l.length + 1 := by
  induction l with
  | nil => rfl
  | cons x xs ih =>
    rw [insertDesc]
    split
    · rfl
    · simp [ih]

/-- Ordering the table does not change its row count. -/
theorem length_sortDesc (db : List MsgRow) : (sortDesc db).length = db.length := by
  induction db with
  | nil => rfl
  | cons x xs ih =>
    show (insertDesc x (sortDesc xs)).length = xs.length + 1
    rw [length_insertDesc, ih]

/-- C2 (counterexample): sanitization is one pass per forbidden string, not a
fixed point: removing "script" from "-script-" concatenates the two dashes
into the forbidden substring "--"; a body containing "-script-" padded to
valid length is accepted and stored with "--" inside. -/
theorem c2_counterexample :
    sanitize_text ['-', 's', 'c', 'r', 'i', 'p', 't', '-'] = ['-', '-'] ∧
    containsPat dashPat (sanitize_text ['-', 's', 'c', 'r', 'i', 'p', 't', '-']) = true ∧
    enviar true ("Ana".toList) ("aaaa-script-aaaa".toList) ['x'] =
      Outcome.response "✅ Mensaje enviado correctamente" ∧
    containsPat dashPat (sanitize_text ("aaaa-script-aaaa".toList)) = true := by
  decide

/-- C2 (amended): sanitize_text applies one removal pass per forbidden string
in the fixed source order; its output never contains any of the five
single-character forbidden strings <, >, double quote (Char.ofNat 34), single
quote (Char.ofNat 39), or semicolon, but it may still contain "--" or
"script" when a later pass glues their fragments together. -/
theorem c2_amended_single_chars_removed (l : List Char) :
    '<' ∉ sanitize_text l ∧ '>' ∉ sanitize_text l ∧
    Char.ofNat 34 ∉ sanitize_text l ∧ Char.ofNat 39 ∉ sanitize_text l ∧
    ';' ∉ sanitize_text l := by
  rw [sanitize_text_eq]
  refine ⟨?_, ?_, ?_, ?_, ?_⟩
  · exact not_mem_replacePat _ (not_mem_replacePat _ (not_mem_replacePat _
      (not_mem_replacePat _ (not_mem_replacePat _ (not_mem_replacePat _
        (not_mem_replacePat_single '<' l))))))
  · exact not_mem_replacePat _ (not_mem_replacePat _ (not_mem_replacePat _
      (not_mem_replacePat _ (not_mem_replacePat _
        (not_mem_replacePat_single '>' _)))))
  · exact not_mem_replacePat _ (not_mem_replacePat _ (not_mem_replacePat _
      (not_mem_replacePat _ (not_mem_replacePat_single (Char.ofNat 34) _))))
  · exact not_mem_replacePat _ (not_mem_replacePat _ (not_mem_replacePat _
      (not_mem_replacePat_single (Char.ofNat 39) _)))
  · exact not_mem_replacePat _ (not_mem_replacePat _
      (not_mem_replacePat_single ';' _))

/-- C5: in every execution of the upload handler, a database insert for an
image happens only immediately after a successful disk write of the file with
the same generated filename, so no image row is ever created whose file write
did not succeed. -/
theorem c5_insert_only_after_write (env : Env) (parts : List (Except Unit Part)) :
    chkEvents none (upload_image env parts).2 = true := by
  unfold upload_image
  split
  · exact chk_uploadLoop env parts 0 false none
  · rfl

/-- C6 (counterexample): the router registers no DELETE route for images; the
only DELETE route is /mensajes/:id, and the claimed DELETE /images/{filename}
endpoint is not among the routes. -/
theorem c6_counterexample :
    routes.filter (fun p => decide (p.1 = Method.DELETE)) =
      [(Method.DELETE, "/mensajes/:id")] ∧
    (Method.DELETE, "/images/:filename") ∉ routes := by decide

/-- C6 (amended): the system provides no image deletion operation: no route
pairs the DELETE method with any path other than /mensajes/:id; images can
only be uploaded (POST /upload-image) and listed (GET /images), and the
uploads directory is mounted as a static file service. -/
theorem c6_amended_no_image_delete :
    routes.filter (fun p => decide (p.1 = Method.DELETE) && decide (p.2 ≠ "/mensajes/:id")) = [] ∧
    (Method.GET, "/images") ∈ routes ∧ (Method.POST, "/upload-image") ∈ routes ∧
    "/uploads" ∈ nestedServices := by decide

/-- Values already inside [0, 2^63) are unchanged by the i64 wrap. -/
theorem wrap64_eq_self {n : Int} (h0 : 0 ≤ n) (h1 : n < 9223372036854775808) :
    wrap64 n = n := by
  unfold wrap64
  rw [Int.emod_eq_of_lt (by omega) (by omega)]
  omega

/-- C7 (counterexample): the offset multiplication is performed in i64, so it
overflows at reachable query parameters: with page = 2^32 + 1 and
pageSize = 2^32 the product 2^64 wraps to offset 0, and the request — far
beyond the last page of the 23-row table (total_pages = 1) — returns all 23
rows instead of the empty row set the claim requires. -/
theorem c7_counterexample :
    list_mensajes_core db23 true true (some 4294967297) (some 4294967296) =
      ListOutcome.json
        { data := db23sorted, total := 23, page := 4294967297, total_pages := 1 } ∧
    db23sorted ≠ [] := by decide

/-- C7 (amended): provided the i64 product (page-1)*pageSize does not overflow
(below 2^63; an overflowing product wraps in the compiled binary, e.g. page =
2^32+1 with pageSize = 2^32 wraps the offset to 0 and returns first-page
rows), message listing clamps the page to a minimum of 1 and the page size to
a minimum of 1 (zero or negative page sizes never reach the division), takes
its rows at offset (page-1)*pageSize from the descending-id ordering, reports
total and total_pages = ceil(total/pageSize) over the whole table, returns an
empty row set with total and total_pages still populated for a page beyond
the last, and on the 23-row table with pageSize 10 returns 10 rows on page 1,
3 rows on page 3, and 0 rows on page 4, always with total_pages = 3. -/
theorem c7_pagination :
    (∀ (db : List MsgRow) (p l : Int),
       (max p 1 - 1) * max l 1 < 9223372036854775808 →
       list_mensajes_core db true true (some p) (some l) =
         ListOutcome.json
           { data := ((sortDesc db).drop ((max p 1 - 1) * max l 1).toNat).take (max l 1).toNat
             total := (db.length : Int)
             page := max p 1
             total_pages := ((db.length : Int) + max l 1 - 1) / max l 1 }) ∧
    (∀ (db : List MsgRow) (p l : Int),
       (max p 1 - 1) * max l 1 < 9223372036854775808 →
       (db.length : Int) ≤ (max p 1 - 1) * max l 1 →
       list_mensajes_core db true true (some p) (some l) =
         ListOutcome.json
           { data := []
             total := (db.length : Int)
             page := max p 1
             total_pages := ((db.length : Int) + max l 1 - 1) / max l 1 }) ∧
    list_mensajes_core db23 true true (some 1) (some 10) =
      ListOutcome.json { data := db23sorted.take 10, total := 23, page := 1, total_pages := 3 } ∧
    (db23sorted.take 10).length = 10 ∧
    list_mensajes_core db23 true true (some 3) (some 10) =
      ListOutcome.json { data := (db23sorted.drop 20).take 10, total := 23, page := 3, total_pages := 3 } ∧
    ((db23sorted.drop 20).take 10).length = 3 ∧
    list_mensajes_core db23 true true (some 4) (some 10) =
      ListOutcome.json { data := [], total := 23, page := 4, total_pages := 3 } := by
  have key : ∀ (db : List MsgRow) (p l : Int),
      (max p 1 - 1) * max l 1 < 9223372036854775808 →
      list_mensajes_core db true true (some p) (some l) =
        ListOutcome.json
          { data := ((sortDesc db).drop ((max p 1 - 1) * max l 1).toNat).take (max l 1).toNat
            total := (db.length : Int)
            page := max p 1
            total_pages := ((db.length : Int) + max l 1 - 1) / max l 1 } := by
    intro db p l hov
    have hp : (1 : Int) ≤ max p 1 := le_max_right p 1
    have hl : (1 : Int) ≤ max l 1 := le_max_right l 1
    have h0 : (0 : Int) ≤ (max p 1 - 1) * max l 1 :=
      mul_nonneg (by omega) (by omega)
    unfold list_mensajes_core
    simp only [Option.getD_some, wrap64_eq_self h0 hov]
    simp [h0]
  refine ⟨key, ?_, by decide, by decide, by decide, by decide, by decide⟩
  intro db p l hov h
  rw [key db p l hov]
  have hlen : (sortDesc db).length ≤ ((max p 1 - 1) * max l 1).toNat := by
    rw [length_sortDesc]
    have := Int.toNat_le_toNat h
    simpa using this
  have hdrop : (sortDesc db).drop ((max p 1 - 1) * max l 1).toNat = [] :=
    List.drop_eq_nil_of_le hlen
  rw [hdrop, List.take_nil]

/-- C7 (witness): the beyond-the-last-page conjunct applied to the concrete
23-row table at page 4 with page size 10, where the offset product 30 does
not overflow. -/
theorem c7_witness :
    list_mensajes_core db23 true true (some 4) (some 10) =
      ListOutcome.json
        { data := []
          total := (db23.length : Int)
          page := max (4 : Int) 1
          total_pages := ((db23.length : Int) + max (10 : Int) 1 - 1) / max (10 : Int) 1 } :=
  c7_pagination.2.1 db23 4 10 (by decide) (by decide)

/-- C1 (counterexample): a failing database SELECT in the message listing does
not resolve to a response: the handling task panics on .unwrap(). -/
theorem c1_counterexample :
    list_mensajes_core [] true false (some 1) (some 5) = ListOutcome.panicked := by decide

/-- C1 (amended): message submission and the admin update/delete resolve every
database failure to a response, but the remaining handlers do not: a failing
multipart.next_field() in the upload (and a failing create_dir_all), and a
failing SELECT in the message or image listing, terminate the handling task
with a panic instead of a response. -/
theorem c1_amended_panics :
    (∀ (ok : Bool) (n m r : List Char), ∃ s, enviar ok n m r = Outcome.response s) ∧
    (∀ (ok : Bool) (i : Int) (n m : List Char), ∃ s, update_mensaje ok i n m = Outcome.response s) ∧
    (∀ (ok : Bool) (i : Int), ∃ s, delete_mensaje ok i = Outcome.response s) ∧
    (∀ (db : List MsgRow) (cOk : Bool) (p l : Option Int),
       list_mensajes_core db cOk false p l = ListOutcome.panicked) ∧
    (∀ db : List ImageRow, list_images db false = ImagesOutcome.panicked) ∧
    (∀ (env : Env) (rest : List (Except Unit Part)), env.createDirOk = true →
       upload_image env (Except.error () :: rest) = (Outcome.panicked, [])) ∧
    (∀ (env : Env) (parts : List (Except Unit Part)), env.createDirOk = false →
       upload_image env parts = (Outcome.panicked, [])) := by
  refine ⟨?_, ?_, ?_, ?_, ?_, ?_, ?_⟩
  · intro ok n m r
    unfold enviar
    repeat' split
    all_goals exact ⟨_, rfl⟩
  · intro ok i n m
    unfold update_mensaje
    repeat' split
    all_goals exact ⟨_, rfl⟩
  · intro ok i
    unfold delete_mensaje
    split
    all_goals exact ⟨_, rfl⟩
  · intro db cOk p l
    rfl
  · intro db
    rfl
  · intro env rest h
    unfold upload_image
    rw [if_pos h]
    rfl
  · intro env parts h
    unfold upload_image
    rw [if_neg (by simp [h])]

/-- C1 (witness): the panic conjunct applied to a concrete failing multipart
stream in the all-oracles-succeed environment. -/
theorem c1_witness : upload_image envAllOk [Except.error ()] = (Outcome.panicked, []) :=
  c1_amended_panics.2.2.2.2.2.1 envAllOk [] rfl

/-- C8: media validation admits a file field exactly when its declared content
type is one of the four allowed and its payload is at most 5*1024*1024 bytes.
A disallowed content type on the first file field (any earlier fields not
named "file" are skipped) is rejected with an empty effect trace, i.e. before
any file is written; an oversized payload likewise; an admitted field is
written and recorded. -/
theorem c8_media_validation :
    (∀ (env : Env) (pre : List Part) (f : Part) (rest : List (Except Unit Part)),
       env.createDirOk = true → (∀ q ∈ pre, q.name ≠ some "file") →
       f.name = some "file" → f.contentType.getD "" ∉ ALLOWED_MIME →
       upload_image env (pre.map Except.ok ++ (Except.ok f :: rest)) =
         (Outcome.response "❌ Tipo de archivo no permitido", [])) ∧
    (∀ (env : Env) (ct : Option String) (b : List Nat) (rest : List (Except Unit Part)),
       env.createDirOk = true → ct.getD "" ∈ ALLOWED_MIME → MAX_IMAGE_SIZE < b.length →
       upload_image env (Except.ok { name := some "file", contentType := ct, bytesRes := Except.ok b } :: rest) =
         (Outcome.response "❌ Imagen demasiado grande (máx 5MB)", [])) ∧
    (∀ (env : Env) (ct : Option String) (b : List Nat) (ext : String),
       env.createDirOk = true → env.createOk 0 = true → env.writeOk 0 = true →
       env.insertOk 0 = true → ct.getD "" ∈ ALLOWED_MIME →
       extensionFor (ct.getD "") = some ext → b.length ≤ MAX_IMAGE_SIZE →
       upload_image env [Except.ok { name := some "file", contentType := ct, bytesRes := Except.ok b }] =
         (Outcome.response "✅ Imagen subida correctamente",
          [Event.create (env.freshName 0 ++ "." ++ ext) true,
           Event.write (env.freshName 0 ++ "." ++ ext) true,
           Event.insert (env.freshName 0 ++ "." ++ ext) true])) := by
  refine ⟨?_, ?_, ?_⟩
  · intro env pre f rest hdir hpre hn hm
    unfold upload_image
    rw [if_pos hdir, uploadLoop_skip env pre hpre, uploadLoop_bad_type env f rest 0 false hn hm]
  · intro env ct b rest hdir hm hb
    unfold upload_image
    rw [if_pos hdir, uploadLoop_too_large env ct b rest 0 false hm hb]
  · intro env ct b ext hdir hc hw hi hm he hb
    unfold upload_image
    rw [if_pos hdir, uploadLoop_valid_step env ct b ext [] 0 false hm he hb hc hw]
    simp [uploadLoop, hi]

/-- C8 (witness): a payload of exactly 5 MiB is accepted and written, a
payload of 5 MiB + 1 is rejected with no effect. -/
theorem c8_witness :
    upload_image envAllOk [Except.ok png5MiB] =
      (Outcome.response "✅ Imagen subida correctamente",
       [Event.create ("u" ++ "." ++ "png") true, Event.write ("u" ++ "." ++ "png") true,
        Event.insert ("u" ++ "." ++ "png") true]) ∧
    upload_image envAllOk [Except.ok pngOver5MiB] =
      (Outcome.response "❌ Imagen demasiado grande (máx 5MB)", []) := by
  constructor
  · exact c8_media_validation.2.2 envAllOk (some "image/png") _ "png" rfl rfl rfl rfl
      (by decide) (by decide)
      (by rw [List.length_replicate]; exact Nat.le_refl MAX_IMAGE_SIZE)
  · exact c8_media_validation.2.1 envAllOk (some "image/png") _ [] rfl (by decide)
      (by rw [List.length_replicate]; exact Nat.lt_succ_self MAX_IMAGE_SIZE)

/-- C4 (counterexample): when the disk write succeeds and the row insert
fails, the handler still answers with the success message, not a failure:
file_saved is set before the insert result is inspected and the insert error
is discarded. -/
theorem c4_counterexample :
    (upload_image envNoInsert [Except.ok pngPart]).1 =
      Outcome.response "✅ Imagen subida correctamente" ∧
    (upload_image envNoInsert [Except.ok pngPart]).2 =
      [Event.create "u.png" true, Event.write "u.png" true, Event.insert "u.png" false] := by
  decide

/-- C4 (amended): for an image upload in which the disk write succeeds but the
database insert fails, the response is the success message (the insert error
is silently discarded), and the already-written file is not rolled back: the
trace ends after the failed insert with no further filesystem action. -/
theorem c4_amended_success_despite_insert_failure (env : Env) (ct : Option String)
    (b : List Nat) (ext : String)
    (hdir : env.createDirOk = true) (hc : env.createOk 0 = true) (hw : env.writeOk 0 = true)
    (hi : env.insertOk 0 = false) (hm : ct.getD "" ∈ ALLOWED_MIME)
    (he : extensionFor (ct.getD "") = some ext) (hb : b.length ≤ MAX_IMAGE_SIZE) :
    upload_image env [Except.ok { name := some "file", contentType := ct, bytesRes := Except.ok b }] =
      (Outcome.response "✅ Imagen subida correctamente",
       [Event.create (env.freshName 0 ++ "." ++ ext) true,
        Event.write (env.freshName 0 ++ "." ++ ext) true,
        Event.insert (env.freshName 0 ++ "." ++ ext) false]) := by
  unfold upload_image
  rw [if_pos hdir, uploadLoop_valid_step env ct b ext [] 0 false hm he hb hc hw]
  simp [uploadLoop, hi]

/-- C4 (witness): the amended statement at a concrete png upload whose insert
oracle fails. -/
theorem c4_witness :
    upload_image envNoInsert [Except.ok { name := some "file", contentType := some "image/png", bytesRes := Except.ok [0] }] =
      (Outcome.response "✅ Imagen subida correctamente",
       [Event.create ("u" ++ "." ++ "png") true, Event.write ("u" ++ "." ++ "png") true,
        Event.insert ("u" ++ "." ++ "png") false]) :=
  c4_amended_success_despite_insert_failure envNoInsert (some "image/png") [0] "png"
    rfl rfl rfl rfl (by decide) (by decide) (by decide)

/-- C10: a multipart payload with a valid "file" part followed by a second
"file" part that fails the type or size check is answered with the
corresponding rejection response, while the first part's file write and row
insert remain in the effect trace: a failure response does not mean nothing
was persisted. -/
theorem c10_partial_persistence (env : Env) (ct1 : Option String) (b1 : List Nat) (ext1 : String)
    (p2 : Part)
    (hdir : env.createDirOk = true) (hc : env.createOk 0 = true) (hw : env.writeOk 0 = true)
    (hi : env.insertOk 0 = true) (hm1 : ct1.getD "" ∈ ALLOWED_MIME)
    (he1 : extensionFor (ct1.getD "") = some ext1) (hb1 : b1.length ≤ MAX_IMAGE_SIZE)
    (hn2 : p2.name = some "file")
    (hfail : p2.contentType.getD "" ∉ ALLOWED_MIME ∨
       (p2.contentType.getD "" ∈ ALLOWED_MIME ∧
         ∃ b2, p2.bytesRes = Except.ok b2 ∧ MAX_IMAGE_SIZE < b2.length)) :
    ∃ s, upload_image env
        [Except.ok { name := some "file", contentType := ct1, bytesRes := Except.ok b1 },
         Except.ok p2] =
        (Outcome.response s,
         [Event.create (env.freshName 0 ++ "." ++ ext1) true,
          Event.write (env.freshName 0 ++ "." ++ ext1) true,
          Event.insert (env.freshName 0 ++ "." ++ ext1) true]) ∧
      (s = "❌ Tipo de archivo no permitido" ∨ s = "❌ Imagen demasiado grande (máx 5MB)") := by
  unfold upload_image
  rw [if_pos hdir, uploadLoop_valid_step env ct1 b1 ext1 [Except.ok p2] 0 false hm1 he1 hb1 hc hw]
  rcases hfail with hbad | ⟨hok2, b2, hb2, hlen⟩
  · rw [uploadLoop_bad_type env p2 [] 1 true hn2 hbad]
    exact ⟨"❌ Tipo de archivo no permitido", by simp [hi], Or.inl rfl⟩
  · obtain ⟨nm2, ct2, bs2⟩ := p2
    simp only at hn2 hb2
    subst hn2
    subst hb2
    rw [uploadLoop_too_large env ct2 b2 [] 1 true hok2 hlen]
    exact ⟨"❌ Imagen demasiado grande (máx 5MB)", by simp [hi], Or.inr rfl⟩

/-- C10 (witness): a valid png followed by a text/plain part: rejection
response with the png's write and insert persisted. -/
theorem c10_witness :
    ∃ s, upload_image envAllOk
        [Except.ok { name := some "file", contentType := some "image/png", bytesRes := Except.ok [0] },
         Except.ok { name := some "file", contentType := some "text/plain", bytesRes := Except.ok [0] }] =
        (Outcome.response s,
         [Event.create ("u" ++ "." ++ "png") true, Event.write ("u" ++ "." ++ "png") true,
          Event.insert ("u" ++ "." ++ "png") true]) ∧
      (s = "❌ Tipo de archivo no permitido" ∨ s = "❌ Imagen demasiado grande (máx 5MB)") :=
  c10_partial_persistence envAllOk (some "image/png") [0] "png" _ rfl rfl rfl rfl
    (by decide) (by decide) (by decide) rfl (Or.inl (by decide))

/-- C3 (counterexample): with one stored message named "Bob", a request with
search=ana returns that row and total 1, although "Bob" does not contain
"ana" case-insensitively: the claimed filter (under which the row set and the
total would be empty and 0) does not exist. -/
theorem c3_counterexample :
    list_mensajes_route [bobRow] true true [("search", "ana")] =
      ListOutcome.json { data := [bobRow], total := 1, page := 1, total_pages := 1 } ∧
    spec_ci_contains ['a', 'n', 'a'] bobRow.nombre = false := by decide

/-- C3 (amended): the admin message listing accepts no search filter: its
parameter struct has only page and limit, any other query key is ignored (the
response is unchanged when one is added), and the returned rows, total and
total_pages are always computed over all messages. -/
theorem c3_amended_search_ignored :
    (∀ (db : List MsgRow) (cOk fOk : Bool) (key v : String) (q : List (String × String)),
       key ≠ "page" → key ≠ "limit" →
       list_mensajes_route db cOk fOk ((key, v) :: q) = list_mensajes_route db cOk fOk q) ∧
    (∀ (db : List MsgRow) (v : String),
       list_mensajes_route db true true [("search", v)] =
         ListOutcome.json
           { data := (sortDesc db).take 5
             total := (db.length : Int)
             page := 1
             total_pages := ((db.length : Int) + 5 - 1) / 5 }) := by
  constructor
  · intro db cOk fOk key v q h1 h2
    have hp : ("page" == key) = false := beq_eq_false_iff_ne.mpr (Ne.symm h1)
    have hl : ("limit" == key) = false := beq_eq_false_iff_ne.mpr (Ne.symm h2)
    simp [list_mensajes_route, paramsOfQuery, List.lookup, hp, hl]
  · intro db v
    rfl

/-- C3 (witness): adding search=ana to a request leaves the response
unchanged. -/
theorem c3_witness :
    list_mensajes_route [bobRow] true true [("search", "ana"), ("page", "1")] =
      list_mensajes_route [bobRow] true true [("page", "1")] :=
  c3_amended_search_ignored.1 [bobRow] true true "search" "ana" [("page", "1")]
    (by decide) (by decide)

/-- C9 (counterexample): the body length check counts UTF-8 bytes, not
characters: a sanitized body of 9 characters 'á' (18 bytes) passes validation
and is stored, though the claim requires every 9-character body to fail. -/
theorem c9_counterexample :
    (List.replicate 9 'á').length = 9 ∧
    sanitize_text (List.replicate 9 'á') = List.replicate 9 'á' ∧
    enviar true ("Ana".toList) (List.replicate 9 'á') ['x'] =
      Outcome.response "✅ Mensaje enviado correctamente" := by decide

set_option maxRecDepth 16384 in
/-- C9 (amended): body validation fails exactly when the UTF-8 byte length of
the sanitized body is below 10 or above 500 (bytes coincide with characters
only for ASCII bodies); the boundaries are inclusive — ASCII bodies of 9 and
501 bytes fail, of 10 and 500 bytes pass — and no further restriction is
placed on the body's characters. -/
theorem c9_amended_byte_length :
    (∀ (ok : Bool) (nombre mensaje recaptcha : List Char),
       nameMatches (sanitize_text nombre) = true →
       (enviar ok nombre mensaje recaptcha = Outcome.response "❌ Mensaje inválido" ↔
         (utf8Length (sanitize_text mensaje) < 10 ∨ 500 < utf8Length (sanitize_text mensaje)))) ∧
    utf8Length (List.replicate 9 'a') = 9 ∧
    utf8Length (List.replicate 10 'a') = 10 ∧
    utf8Length (List.replicate 500 'a') = 500 ∧
    utf8Length (List.replicate 501 'a') = 501 ∧
    enviar true ("Ana".toList) (List.replicate 9 'a') ['x'] =
      Outcome.response "❌ Mensaje inválido" ∧
    enviar true ("Ana".toList) (List.replicate 10 'a') ['x'] =
      Outcome.response "✅ Mensaje enviado correctamente" ∧
    enviar true ("Ana".toList) (List.replicate 500 'a') ['x'] =
      Outcome.response "✅ Mensaje enviado correctamente" ∧
    enviar true ("Ana".toList) (List.replicate 501 'a') ['x'] =
      Outcome.response "❌ Mensaje inválido" := by
  refine ⟨?_, by decide, by decide, by decide, by decide, by decide, by decide, by decide,
    by decide⟩
  intro ok nombre mensaje recaptcha hname
  by_cases hb : utf8Length (sanitize_text mensaje) < 10 ∨ 500 < utf8Length (sanitize_text mensaje)
  · simp [enviar, hname, hb]
  · by_cases hr : recaptcha.isEmpty = true
    · simp [enviar, hname, hb, hr]
    · by_cases hok : ok = true
      · simp [enviar, hname, hb, hr, hok]
      · simp [enviar, hname, hb, hr, hok]

/-- C9 (witness): the length characterization applied to a concrete valid
submission. -/
theorem c9_witness :
    enviar true ("Ana".toList) (List.replicate 300 'a') ['x'] =
        Outcome.response "❌ Mensaje inválido" ↔
      (utf8Length (sanitize_text (List.replicate 300 'a')) < 10 ∨
        500 < utf8Length (sanitize_text (List.replicate 300 'a'))) :=
  c9_amended_byte_length.1 true ("Ana".toList) (List.replicate 300 'a') ['x'] (by decide)

end Hola
